import Mathlib

/-!
Verification of the shared-counter admission engine of mod_vlimit
(src/mod_vlimit.c) against its natural-language specification.

The C source is shallowly embedded: the fixed-capacity slot tables become
lists of slots, the per-request admission function (vlimit_check_limit),
the completion function (vlimit_response_end), the virtual-host predicate
(check_virtualhost_name), the path canonicalizer (realpath_for_vlimit) and
the handler dispatch (vlimit_handler) become pure Lean functions.  External
effects are made explicit parameters: the success of the cross-process
mutex operations becomes two booleans (lockOk / unlockOk), and the
filesystem consulted by the canonicalizer becomes an explicit record.
Diagnostics (syslog lines, the sentinel-gated flat-file logs) have no
effect on tables or results and are not modelled; where the C signals an
error that it then logs, the embedding returns the same error signal.
-/

set_option maxRecDepth 10000

/-- Capacity of each slot table (`#define MAX_CLIENTS 512`). -/
def MAX_CLIENTS : Nat := 512

/-- Storage bound of a file slot key (`#define MAX_FILENAME 256`). -/
def MAX_FILENAME : Nat := 256

/-- Storage bound of an ip slot key (`#define IP_MAX 15`). -/
def IP_MAX : Nat := 15

/-- Symlink indirection bound of the canonicalizer (`#define MAXSYMLINKS 256`). -/
def MAXSYMLINKS : Nat := 256

/-- Canonicalization buffer bound (`PATH_MAX`, 4096 on Linux). -/
def PATH_MAX : Nat := 4096

/-- One slot of a counter table: `ip_stat` / `file_stat` in the source.
Both C structs are a bounded key string plus a signed counter; the two
textually parallel operation families (`*_file_*` on `file_stat_shm`,
`*_ip_*` on `ip_stat_shm`) are embedded once over this common slot type
and instantiated below with the key the C passes (basename(r->filename)
resp. r->connection->remote_ip).  Keys are modelled as unbounded strings;
the C storage bound (and its violation by strcpy) is treated separately. -/
structure Slot where
  key : String
  counter : Int
deriving DecidableEq, Repr

instance : Inhabited Slot := ⟨⟨"", 0⟩⟩

/-- The pair of tables one configuration owns (`SHM_DATA`): the element of
the shared-memory region at index conf_id.  The C selects it by pointer
arithmetic (`shm_base + cfg->conf_id`); the embedding passes it directly. -/
structure ShmData where
  file_stat_shm : List Slot
  ip_stat_shm : List Slot
deriving DecidableEq, Repr

/-- Slot lookup at an index; the C indexes the fixed array directly.  All
indices fed to this function come from successful scans and are in bounds. -/
def slotAt (tbl : List Slot) (i : Nat) : Slot := tbl.getD i default

/-- In-place update of one slot, as the C's assignments through
`limit_stat->..._shm[id]` do. -/
def modifySlot : List Slot → Nat → (Slot → Slot) → List Slot
  | [], _, _ => []
  | s :: t, 0, f => f s :: t
  | s :: t, n + 1, f => s :: modifySlot t n f

/-- Index of the first slot satisfying a predicate: the linear scan
`for (i = 0; i < MAX_CLIENTS; i++) if (...) return i;` with `none`
standing for the C's `-1`. -/
def scanSlots (p : Slot → Bool) : List Slot → Option Nat
  | [] => none
  | s :: t => if p s then some 0 else (scanSlots p t).map (· + 1)

/-- `get_file_slot_id` / `get_ip_slot_id`: first slot whose key equals the
request's key (strcmp == 0). -/
def find_slot_id (tbl : List Slot) (key : String) : Option Nat :=
  scanSlots (fun s => s.key == key) tbl

/-- `get_file_empty_slot_id` / `get_ip_empty_slot_id`: first slot whose key
is the empty string (`...[i].filename[0] == '\0'`). -/
def find_empty_slot_id (tbl : List Slot) : Option Nat :=
  scanSlots (fun s => s.key == "") tbl

/-- `get_file_counter` / `get_ip_counter`: look the key up, falling back to
the first empty slot; return that slot's counter, or `-1` when the table
is full (the C conflates this sentinel with counter values). -/
def get_counter (tbl : List Slot) (key : String) : Int :=
  match find_slot_id tbl key with
  | some i => (slotAt tbl i).counter
  | none =>
    match find_empty_slot_id tbl with
    | some i => (slotAt tbl i).counter
    | none => -1

/-- `inc_file_counter` / `inc_ip_counter`: find or allocate the slot for the
key and increment its counter; `none` is the C's `-1` (table full, no side
effect).  On allocation the C strcpy-writes the key and then increments
whatever counter the empty slot held.  The file variant's compare-and-loop
(`while(1){old=c; new=old+1; if(c==old){c=new;break;}}`) is, under the
sequential semantics of the held lock, exactly `counter := counter + 1`. -/
def inc_counter (tbl : List Slot) (key : String) : Option (List Slot) :=
  match find_slot_id tbl key with
  | some i => some (modifySlot tbl i (fun s => { s with counter := s.counter + 1 }))
  | none =>
    match find_empty_slot_id tbl with
    | some i => some (modifySlot tbl i (fun s => { key := key, counter := s.counter + 1 }))
    | none => none

/-- `dec_file_counter` / `dec_ip_counter`: decrement the found slot's
counter; `none` is the C's `-1` branch ("unexpected error, slot not
found", logged to syslog), which leaves the table untouched. -/
def dec_counter (tbl : List Slot) (key : String) : Option (List Slot) :=
  match find_slot_id tbl key with
  | some i => some (modifySlot tbl i (fun s => { s with counter := s.counter - 1 }))
  | none => none

/-- `unset_file_counter` / `unset_ip_counter`: clear the key of the found
slot iff its counter is exactly 0.  When the key is absent the C indexes
the table with `id == -1` without checking (an out-of-bounds access,
undefined behavior); only the defined case is modelled, the undefined one
is mapped to "no change". -/
def unset_counter (tbl : List Slot) (key : String) : List Slot :=
  match find_slot_id tbl key with
  | some i => modifySlot tbl i (fun s => if s.counter = 0 then { s with key := "" } else s)
  | none => tbl

/-- The fields of the Apache request record this module reads. -/
structure Request where
  isInitialReq : Bool
  remoteIp : String
  filename : String
  hostHeader : Option String
deriving DecidableEq, Repr

/-- The fields of the Apache server record this module reads: the primary
ServerName and the ServerAlias list (`r->server->server_hostname`,
`r->server->names`). -/
structure ServerRec where
  server_hostname : String
  names : List String
deriving DecidableEq, Repr

/-- The module's per-scope configuration (`vlimit_config`); `type` and
`conf_id` are omitted: `type` is never read by the admission/completion
logic and `conf_id` only selects which ShmData the functions receive. -/
structure VlimitConfig where
  ip_limit : Int
  file_limit : Int
  full_path : Option String
deriving DecidableEq, Repr

/-- POSIX basename(3) as used via libgen.h: strip trailing slashes, then
take the final path component; "" gives ".", an all-slash path gives "/". -/
def posixBasename (s : String) : String :=
  match s.toList with
  | [] => "."
  | cs =>
    match (cs.reverse.dropWhile (fun c => c = '/')) with
    | [] => "/"
    | trimmedRev => String.mk (trimmedRev.takeWhile (fun c => c ≠ '/')).reverse

/-- The delimiter predicate of `strtok(s, ":")`. -/
def isColon (c : Char) : Bool := c = ':'

/-- First token of `strtok(s, ":")`: skip leading colons, then take up to
the next colon; `none` when the string holds no token (NULL in C). -/
def strtok_first (s : String) : Option String :=
  match s.toList.dropWhile isColon with
  | [] => none
  | t => some (String.mk (t.takeWhile (fun c => !isColon c)))

/-- The host identity both hooks compute: the Host header (or the sentinel
"NoHostHeader" when absent), run through `strtok(header, ":")`, falling
back to the raw header when strtok returns NULL. -/
def access_host (hostHeader : Option String) : String :=
  match hostHeader with
  | none => (strtok_first "NoHostHeader").getD "NoHostHeader"
  | some h => (strtok_first h).getD h

/-- `check_virtualhost_name`: the C returns 0 on match and 1 on mismatch;
modelled as a Bool with `true` = match.  Match: the stripped host equals
the primary ServerName, or equals some ServerAlias, by exact (strcmp)
comparison. -/
def check_virtualhost_name (sv : ServerRec) (r : Request) : Bool :=
  let ah := access_host r.hostHeader
  (ah == sv.server_hostname) || sv.names.contains ah

/-- The three results the hooks return: DECLINED, OK, and
HTTP_SERVICE_UNAVAILABLE. -/
inductive CheckResult where
  | declined
  | ok
  | serviceUnavailable
deriving DecidableEq, Repr

/-- Outcome of one admission call: the returned status, the table pair
after the call, and whether the call returned while still holding the
global mutex. -/
structure CheckOutcome where
  result : CheckResult
  shm : ShmData
  lockHeld : Bool
deriving DecidableEq, Repr

/-- File-table wrappers keyed the way the C call sites key them. -/
def get_file_counter (tbl : List Slot) (r : Request) : Int :=
  get_counter tbl (posixBasename r.filename)

def inc_file_counter (tbl : List Slot) (r : Request) : Option (List Slot) :=
  inc_counter tbl (posixBasename r.filename)

def dec_file_counter (tbl : List Slot) (r : Request) : Option (List Slot) :=
  dec_counter tbl (posixBasename r.filename)

def unset_file_counter (tbl : List Slot) (r : Request) : List Slot :=
  unset_counter tbl (posixBasename r.filename)

/-- IP-table wrappers keyed by `r->connection->remote_ip`. -/
def get_ip_counter (tbl : List Slot) (r : Request) : Int :=
  get_counter tbl r.remoteIp

def inc_ip_counter (tbl : List Slot) (r : Request) : Option (List Slot) :=
  inc_counter tbl r.remoteIp

def dec_ip_counter (tbl : List Slot) (r : Request) : Option (List Slot) :=
  dec_counter tbl r.remoteIp

def unset_ip_counter (tbl : List Slot) (r : Request) : List Slot :=
  unset_counter tbl r.remoteIp

/-- Tail of `vlimit_check_limit` from the mutex unlock on (lines 628-673):
on unlock failure return OK (the mutex stays unreleased); otherwise
compare the observed counts against the limits — over the ip limit, then
over the file limit, reject with 503; else OK. -/
def vlimit_decision (cfg : VlimitConfig) (shm : ShmData) (ip_count file_count : Int)
    (unlockOk : Bool) : CheckOutcome :=
  if unlockOk = false then ⟨.ok, shm, true⟩
  else if cfg.ip_limit > 0 ∧ ip_count > cfg.ip_limit then ⟨.serviceUnavailable, shm, false⟩
  else if cfg.file_limit > 0 ∧ file_count > cfg.file_limit then ⟨.serviceUnavailable, shm, false⟩
  else ⟨.ok, shm, false⟩

/-- Middle of `vlimit_check_limit` (lines 618-626): with the mutex held
and the file step done, increment the ip counter when ip_limit > 0; the
table-full signal returns 503 at once — with the mutex still held. -/
def vlimit_ip_step (cfg : VlimitConfig) (shm : ShmData) (r : Request)
    (file_count : Int) (unlockOk : Bool) : CheckOutcome :=
  if cfg.ip_limit > 0 then
    match inc_ip_counter shm.ip_stat_shm r with
    | none => ⟨.serviceUnavailable, shm, true⟩
    | some itbl =>
      vlimit_decision cfg { shm with ip_stat_shm := itbl }
        (get_ip_counter itbl r) file_count unlockOk
  else
    vlimit_decision cfg shm 0 file_count unlockOk

/-- `vlimit_check_limit` (lines 550-674): the admission call.  Skips
(DECLINED) sub-requests and disabled configurations; returns OK without
touching the tables on Host mismatch and on mutex-acquisition failure;
otherwise, under the mutex, increments the file counter (file_limit > 0)
and the ip counter (ip_limit > 0) — a table-full signal from either
returns 503 with the mutex still held — then unlocks and decides. -/
def vlimit_check_limit (sv : ServerRec) (r : Request) (cfg : VlimitConfig)
    (shm : ShmData) (lockOk unlockOk : Bool) : CheckOutcome :=
  if r.isInitialReq = false then ⟨.declined, shm, false⟩
  else if cfg.ip_limit ≤ 0 ∧ cfg.file_limit ≤ 0 then ⟨.declined, shm, false⟩
  else if check_virtualhost_name sv r = false then ⟨.ok, shm, false⟩
  else if lockOk = false then ⟨.ok, shm, false⟩
  else if cfg.file_limit > 0 then
    match inc_file_counter shm.file_stat_shm r with
    | none => ⟨.serviceUnavailable, shm, true⟩
    | some ftbl =>
      vlimit_ip_step cfg { shm with file_stat_shm := ftbl } r
        (get_file_counter ftbl r) unlockOk
  else
    vlimit_ip_step cfg shm r 0 unlockOk

/-- `vlimit_response_end` (lines 1055-1119): the completion call.  Checks
only the Host identity (no initial-request check, no path-scope check);
on mismatch or mutex failure returns OK untouched; otherwise, for each
enabled limit, decrements the counter when its observed value is positive
and reclaims the slot when the observed value reaches 0.  Every return
path of the C function returns OK. -/
def vlimit_response_end (sv : ServerRec) (r : Request) (cfg : VlimitConfig)
    (shm : ShmData) (lockOk unlockOk : Bool) : CheckResult × ShmData :=
  if check_virtualhost_name sv r = false then (.ok, shm)
  else if lockOk = false then (.ok, shm)
  else
    let ftbl0 := shm.file_stat_shm
    let ftbl :=
      if cfg.file_limit > 0 then
        let t1 := if get_file_counter ftbl0 r > 0 then (dec_file_counter ftbl0 r).getD ftbl0 else ftbl0
        if get_file_counter t1 r = 0 then unset_file_counter t1 r else t1
      else ftbl0
    let itbl0 := shm.ip_stat_shm
    let itbl :=
      if cfg.ip_limit > 0 then
        let t1 := if get_ip_counter itbl0 r > 0 then (dec_ip_counter itbl0 r).getD itbl0 else itbl0
        if get_ip_counter t1 r = 0 then unset_ip_counter t1 r else t1
      else itbl0
    (.ok, ⟨ftbl, itbl⟩)

/-- Result of one readlink(2) call as `realpath_for_vlimit` interprets it:
`n < 0 && errno == EINVAL` means the file exists but is not a symlink;
any other failure aborts the canonicalization; otherwise the link target
is returned. -/
inductive ReadlinkRes where
  | notSymlink
  | fail
  | link (target : String)
deriving DecidableEq, Repr

/-- The filesystem as seen by the canonicalizer and the handlers:
readlink's answer per path, getcwd's answer (`none` = getcwd failed),
and access(2)-existence per path. -/
structure Filesystem where
  readlink : String → ReadlinkRes
  cwd : Option String
  fexists : String → Bool

/-- The pop of `..` handling, on the reversed resolved buffer:
`while (npath > resolved_path + 1 && (--npath)[-1] != '/') ;` — drop one
char while more than one remains, stopping once the new last char is a
slash. -/
def popRevLoop : List Char → List Char
  | [] => []
  | [c] => [c]
  | _ :: rest => if rest.head? = some '/' then rest else popRevLoop rest

/-- `..`: pop the resolved buffer back to just after the previous slash,
never below one char. -/
def popComponent (res : List Char) : List Char :=
  (popRevLoop res.reverse).reverse

/-- The component-copy inner loop: copy chars of the current path
component into the resolved buffer, failing with ENAMETOOLONG (`none`)
when the buffer index would pass `maxreslth - 2`; returns the extended
buffer and the rest of the path (empty or starting with a slash). -/
def copyComponent (maxreslth : Nat) : List Char → List Char → Option (List Char × List Char)
  | res, [] => some (res, [])
  | res, c :: rest =>
    if c = '/' then some (res, c :: rest)
    else if res.length > maxreslth - 2 then none
    else copyComponent maxreslth (res ++ [c]) rest

/-- Main loop of `realpath_for_vlimit` (lines 705-764), with explicit fuel
(the C loop, bounded by the MAXSYMLINKS counter, always terminates within
a fuel computable from the argument; every theorem below quantifies over
the fuel or evaluates at a sufficient one).  State: the resolved buffer,
the remaining path, and the readlink counter.  Cases, in the C's order:
skip slashes; skip `.`; pop on `..`; otherwise copy the component, give
up with ELOOP once more than MAXSYMLINKS readlinks happened, consult
readlink — a hard failure aborts, a non-symlink keeps the component, a
symlink rewinds the buffer (to the root for an absolute target, to the
previous slash otherwise) and prepends the target to the remaining path —
then append the separating slash. -/
def realpathLoop (fs : Filesystem) (maxreslth : Nat) :
    Nat → List Char → List Char → Nat → Option (List Char)
  | 0, _, _, _ => none
  | _ + 1, res, [], _ =>
    some (if res.length ≠ 1 ∧ res.getLast? = some '/' then res.dropLast else res)
  | fuel + 1, res, c :: rest, readlinks =>
    if c = '/' then realpathLoop fs maxreslth fuel res rest readlinks
    else if c = '.' ∧ (rest = [] ∨ rest.head? = some '/') then
      realpathLoop fs maxreslth fuel res rest readlinks
    else if c = '.' ∧ rest.head? = some '.' ∧ (rest.tail = [] ∨ rest.tail.head? = some '/') then
      realpathLoop fs maxreslth fuel (popComponent res) rest.tail readlinks
    else
      match copyComponent maxreslth res (c :: rest) with
      | none => none
      | some (res1, path1) =>
        if readlinks > MAXSYMLINKS then none
        else
          match fs.readlink (String.mk res1) with
          | .fail => none
          | .notSymlink => realpathLoop fs maxreslth fuel (res1 ++ ['/']) path1 (readlinks + 1)
          | .link t =>
            let res2 :=
              if t.toList.head? = some '/' then []
              else ((res1.reverse.dropWhile (fun ch => ch ≠ '/')).drop 1).reverse
            realpathLoop fs maxreslth fuel (res2 ++ ['/']) (t.toList ++ path1) (readlinks + 1)

/-- `realpath_for_vlimit` (lines 679-773): seed the resolved buffer — for a
relative path from getcwd (failure aborts; append a slash unless one ends
it), for an absolute path from "/" — then run the loop. -/
def realpath_for_vlimit (fs : Filesystem) (path : String) (maxreslth fuel : Nat) :
    Option String :=
  let seed : Option (List Char × List Char) :=
    match path.toList with
    | '/' :: rest => some (['/'], rest)
    | p =>
      match fs.cwd with
      | none => none
      | some w =>
        let res := w.toList
        some ((if res.getLast? = some '/' then res else res ++ ['/']), p)
  match seed with
  | none => none
  | some (res, p) => (realpathLoop fs maxreslth fuel res p 0).map String.mk

/-- `vlimit_handler` (lines 778-823): the fixups hook.  When a target path
is configured: a target that does not exist on the filesystem is taken
literally, an existing one is canonicalized — canonicalization failure
returns DECLINED — and the result is compared to cfg->full_path by strcmp,
DECLINED on mismatch; on match (or with no configured path) the request
goes to vlimit_check_limit. -/
def vlimit_handler (fs : Filesystem) (sv : ServerRec) (r : Request) (cfg : VlimitConfig)
    (shm : ShmData) (lockOk unlockOk : Bool) (fuel : Nat) : CheckOutcome :=
  match cfg.full_path with
  | none => vlimit_check_limit sv r cfg shm lockOk unlockOk
  | some fp =>
    let rp? : Option String :=
      if fs.fexists r.filename = false then some r.filename
      else realpath_for_vlimit fs r.filename PATH_MAX fuel
    match rp? with
    | none => ⟨.declined, shm, false⟩
    | some rp =>
      if fp ≠ rp then ⟨.declined, shm, false⟩
      else vlimit_check_limit sv r cfg shm lockOk unlockOk

/-- Concrete inputs used by the closed theorems below. -/
def sampleServer : ServerRec := ⟨"www.example.com", ["alias.example.com"]⟩

/-- A full table: all MAX_CLIENTS slots occupied by distinct live keys. -/
def fullTable : List Slot := (List.range MAX_CLIENTS).map (fun i => ⟨"k" ++ toString i, 1⟩)

def fullFileShm : ShmData := ⟨fullTable, []⟩

def fullIpShm : ShmData := ⟨[], fullTable⟩

def sampleRequest : Request :=
  ⟨true, "10.0.0.1", "/var/www/index.html", some "www.example.com"⟩

/-- Bytes written by `strcpy(dst, src)`: the source bytes plus the
terminating NUL.  At src/mod_vlimit.c:225 (`strcpy(...filename,
basename(r->filename))`) the destination is the `char
filename[MAX_FILENAME]` field of the slot. -/
def strcpy_bytes_written (src : String) : Nat := src.utf8ByteSize + 1

/-- A request whose target's base name is 300 characters long. -/
def longNameRequest : Request :=
  ⟨true, "10.0.0.1", "/var/www/" ++ String.mk (List.replicate 300 'a'),
   some "www.example.com"⟩

/-- A filesystem whose only symlink is a self-loop at /www/loop. -/
def loopFs : Filesystem :=
  ⟨fun s => if s = "/www/loop" then ReadlinkRes.link "/www/loop" else ReadlinkRes.notSymlink,
   none, fun _ => true⟩

/-- A filesystem of plain existing files, no symlinks. -/
def plainFs : Filesystem := ⟨fun _ => ReadlinkRes.notSymlink, none, fun _ => true⟩

/-- A filesystem on which no path exists. -/
def missFs : Filesystem := ⟨fun _ => ReadlinkRes.notSymlink, none, fun _ => false⟩

/-- Helper lemmas about the slot-table primitives. -/

theorem modifySlot_length (l : List Slot) (i : Nat) (f : Slot → Slot) :
    (modifySlot l i f).length = l.length := by
  induction l generalizing i with
  | nil => rfl
  | cons s t ih => cases i with
    | zero => rfl
    | succ n => simpa [modifySlot] using ih n

theorem slotAt_cons_zero (s : Slot) (t : List Slot) : slotAt (s :: t) 0 = s := rfl

theorem slotAt_cons_succ (s : Slot) (t : List Slot) (n : Nat) :
    slotAt (s :: t) (n + 1) = slotAt t n := rfl

theorem scanSlots_some {p : Slot → Bool} :
    ∀ (l : List Slot) (i : Nat), scanSlots p l = some i →
      p (slotAt l i) = true ∧ i < l.length := by
  intro l
  induction l with
  | nil => intro i h; simp [scanSlots] at h
  | cons s t ih =>
    intro i h
    simp only [scanSlots] at h
    by_cases hp : p s
    · rw [if_pos hp] at h
      cases h
      exact ⟨hp, Nat.succ_pos _⟩
    · rw [if_neg hp] at h
      rcases Option.map_eq_some'.mp h with ⟨j, hj, hij⟩
      subst hij
      rcases ih j hj with ⟨h1, h2⟩
      exact ⟨h1, Nat.succ_lt_succ h2⟩

theorem scanSlots_modify_congr (p : Slot → Bool) (f : Slot → Slot)
    (hf : ∀ s, p (f s) = p s) :
    ∀ (l : List Slot) (i : Nat), scanSlots p (modifySlot l i f) = scanSlots p l := by
  intro l
  induction l with
  | nil => intro i; rfl
  | cons s t ih =>
    intro i
    cases i with
    | zero => simp [modifySlot, scanSlots, hf s]
    | succ n => simp [modifySlot, scanSlots, ih n]

theorem modifySlot_getD_self (f : Slot → Slot) :
    ∀ (l : List Slot) (i : Nat), i < l.length →
      slotAt (modifySlot l i f) i = f (slotAt l i) := by
  intro l
  induction l with
  | nil => intro i h; simp at h
  | cons s t ih =>
    intro i h
    cases i with
    | zero => rfl
    | succ n =>
      have := ih n (Nat.lt_of_succ_lt_succ h)
      simpa [modifySlot, slotAt_cons_succ] using this

theorem modifySlot_getD_ne (f : Slot → Slot) :
    ∀ (l : List Slot) (i j : Nat), i ≠ j →
      slotAt (modifySlot l j f) i = slotAt l i := by
  intro l
  induction l with
  | nil => intro i j _; rfl
  | cons s t ih =>
    intro i j hij
    cases j with
    | zero =>
      cases i with
      | zero => exact absurd rfl hij
      | succ m => rfl
    | succ n =>
      cases i with
      | zero => rfl
      | succ m =>
        have := ih m n (fun h => hij (by rw [h]))
        simpa [modifySlot, slotAt_cons_succ] using this

theorem modifySlot_id (f : Slot → Slot) :
    ∀ (l : List Slot) (i : Nat), i < l.length →
      f (slotAt l i) = slotAt l i → modifySlot l i f = l := by
  intro l
  induction l with
  | nil => intro i h _; simp at h
  | cons s t ih =>
    intro i h hf
    cases i with
    | zero => simp only [modifySlot]; exact congrArg (fun x => x :: t) hf
    | succ n =>
      simp only [modifySlot]
      rw [ih n (Nat.lt_of_succ_lt_succ h) hf]

theorem modifySlot_congr (f g : Slot → Slot) :
    ∀ (l : List Slot) (i : Nat), f (slotAt l i) = g (slotAt l i) →
      modifySlot l i f = modifySlot l i g := by
  intro l
  induction l with
  | nil => intro i _; rfl
  | cons s t ih =>
    intro i h
    cases i with
    | zero => simp only [modifySlot]; exact congrArg (fun x => x :: t) h
    | succ n => simp only [modifySlot]; rw [ih n h]

theorem find_slot_id_key (tbl : List Slot) (key : String) (i : Nat)
    (h : find_slot_id tbl key = some i) :
    (slotAt tbl i).key = key ∧ i < tbl.length := by
  rcases scanSlots_some tbl i h with ⟨h1, h2⟩
  exact ⟨by simpa using h1, h2⟩

theorem find_empty_slot_id_key (tbl : List Slot) (i : Nat)
    (h : find_empty_slot_id tbl = some i) :
    (slotAt tbl i).key = "" ∧ i < tbl.length := by
  rcases scanSlots_some tbl i h with ⟨h1, h2⟩
  exact ⟨by simpa using h1, h2⟩

/-- Every outcome of the fixups hook is either the scope-check's DECLINED
with untouched tables, or the admission call's outcome. -/
theorem vlimit_handler_cases (fs : Filesystem) (sv : ServerRec) (r : Request)
    (cfg : VlimitConfig) (shm : ShmData) (lockOk unlockOk : Bool) (fuel : Nat) :
    vlimit_handler fs sv r cfg shm lockOk unlockOk fuel = ⟨CheckResult.declined, shm, false⟩ ∨
    vlimit_handler fs sv r cfg shm lockOk unlockOk fuel =
      vlimit_check_limit sv r cfg shm lockOk unlockOk := by
  unfold vlimit_handler
  rcases cfg.full_path with _ | fp
  · exact Or.inr rfl
  · simp only
    split
    · exact Or.inl rfl
    · split
      · exact Or.inl rfl
      · exact Or.inr rfl

/-- C1.  The claim states that when the in-lock increment reports a full
table the engine releases the cross-process lock before returning the
capacity-exhausted rejection.  The code does the opposite: both table-full
branches of vlimit_check_limit (lines 612-614 for the file counter, 621-623
for the ip counter) `return HTTP_SERVICE_UNAVAILABLE` without calling
apr_global_mutex_unlock, so the global mutex IS left held at return.  This
theorem evaluates the embedded admission call at the failing inputs — a
matching initial request against a configuration with the respective limit
enabled and a table whose 512 slots are all occupied by other keys, with
the lock acquired — and shows the rejection is returned with the lock
still held. -/
theorem C1_lock_held_on_full :
    vlimit_check_limit sampleServer sampleRequest ⟨0, 1, none⟩ fullFileShm true true =
      ⟨CheckResult.serviceUnavailable, fullFileShm, true⟩ ∧
    vlimit_check_limit sampleServer sampleRequest ⟨1, 0, none⟩ fullIpShm true true =
      ⟨CheckResult.serviceUnavailable, fullIpShm, true⟩ := by
  exact ⟨by decide, by decide⟩

/-- C2.  At the decision step (reached only after a successful unlock) the
outcome is the 503 rejection iff the ip limit is enabled and the observed
ip count strictly exceeds it, or the file limit is enabled and the
observed file count strictly exceeds it; counts exactly equal to their
limits are admitted (OK). -/
theorem C2_decision_strict_iff (cfg : VlimitConfig) (shm : ShmData)
    (ip_count file_count : Int) :
    ((vlimit_decision cfg shm ip_count file_count true).result =
        CheckResult.serviceUnavailable ↔
      (cfg.ip_limit > 0 ∧ ip_count > cfg.ip_limit) ∨
      (cfg.file_limit > 0 ∧ file_count > cfg.file_limit)) ∧
    (ip_count = cfg.ip_limit → file_count = cfg.file_limit →
      (vlimit_decision cfg shm ip_count file_count true).result = CheckResult.ok) := by
  constructor
  · unfold vlimit_decision
    by_cases h1 : cfg.ip_limit > 0 ∧ ip_count > cfg.ip_limit
    · simp [h1]
    · by_cases h2 : cfg.file_limit > 0 ∧ file_count > cfg.file_limit
      · simp [h1, h2]
      · simp [h1, h2]
  · intro h1 h2
    subst h1; subst h2
    simp [vlimit_decision, lt_irrefl]

/-- Witness for C2 at ip_limit = file_limit = 3 with both observed counts
exactly 3: the request is admitted. -/
theorem C2_decision_strict_iff_witness :
    (vlimit_decision ⟨3, 3, none⟩ ⟨[], []⟩ 3 3 true).result = CheckResult.ok :=
  (C2_decision_strict_iff ⟨3, 3, none⟩ ⟨[], []⟩ 3 3).2 rfl rfl

/-- C3.  Fail-open on synchronization failure: a request that reaches the
lock acquisition (initial request, some limit enabled, Host matched) and
whose acquisition fails gets OK with untouched tables; and a request whose
unlock fails (the step straight after the increments) also gets OK. -/
theorem C3_fail_open (sv : ServerRec) (r : Request) (cfg : VlimitConfig)
    (shm : ShmData) (unlockOk : Bool) (ip_count file_count : Int) :
    (r.isInitialReq = true → ¬(cfg.ip_limit ≤ 0 ∧ cfg.file_limit ≤ 0) →
      check_virtualhost_name sv r = true →
      (vlimit_check_limit sv r cfg shm false unlockOk).result = CheckResult.ok ∧
      (vlimit_check_limit sv r cfg shm false unlockOk).shm = shm) ∧
    (vlimit_decision cfg shm ip_count file_count false).result = CheckResult.ok := by
  constructor
  · intro hr hl hv
    simp [vlimit_check_limit, hr, hl, hv]
  · rfl

/-- Witness for C3: a concrete matching initial request under ip_limit 1
whose lock acquisition fails is allowed through with untouched tables. -/
theorem C3_fail_open_witness :
    (vlimit_check_limit sampleServer sampleRequest ⟨1, 0, none⟩ ⟨[], []⟩ false true).result =
      CheckResult.ok ∧
    (vlimit_check_limit sampleServer sampleRequest ⟨1, 0, none⟩ ⟨[], []⟩ false true).shm =
      (⟨[], []⟩ : ShmData) :=
  (C3_fail_open sampleServer sampleRequest ⟨1, 0, none⟩ ⟨[], []⟩ true 0 0).1
    rfl (by decide) (by decide)

/-- C4.  A sub-request, and any request under a configuration with both
limits 0, is skipped: the admission call returns DECLINED with the tables
untouched (and the fixups hook then returns DECLINED too), regardless of
any counter state. -/
theorem C4_skip_conditions (fs : Filesystem) (sv : ServerRec) (r : Request)
    (cfg : VlimitConfig) (shm : ShmData) (lockOk unlockOk : Bool) (fuel : Nat) :
    (r.isInitialReq = false →
      vlimit_check_limit sv r cfg shm lockOk unlockOk =
        ⟨CheckResult.declined, shm, false⟩ ∧
      (vlimit_handler fs sv r cfg shm lockOk unlockOk fuel).result = CheckResult.declined ∧
      (vlimit_handler fs sv r cfg shm lockOk unlockOk fuel).shm = shm) ∧
    (cfg.ip_limit = 0 → cfg.file_limit = 0 →
      vlimit_check_limit sv r cfg shm lockOk unlockOk =
        ⟨CheckResult.declined, shm, false⟩ ∧
      (vlimit_handler fs sv r cfg shm lockOk unlockOk fuel).result = CheckResult.declined ∧
      (vlimit_handler fs sv r cfg shm lockOk unlockOk fuel).shm = shm) := by
  constructor
  · intro hr
    have hc : vlimit_check_limit sv r cfg shm lockOk unlockOk =
        ⟨CheckResult.declined, shm, false⟩ := by
      simp [vlimit_check_limit, hr]
    refine ⟨hc, ?_⟩
    rcases vlimit_handler_cases fs sv r cfg shm lockOk unlockOk fuel with h | h
    · rw [h]; exact ⟨rfl, rfl⟩
    · rw [h, hc]; exact ⟨rfl, rfl⟩
  · intro h1 h2
    have hc : vlimit_check_limit sv r cfg shm lockOk unlockOk =
        ⟨CheckResult.declined, shm, false⟩ := by
      cases hri : r.isInitialReq <;> simp [vlimit_check_limit, hri, h1, h2]
    refine ⟨hc, ?_⟩
    rcases vlimit_handler_cases fs sv r cfg shm lockOk unlockOk fuel with h | h
    · rw [h]; exact ⟨rfl, rfl⟩
    · rw [h, hc]; exact ⟨rfl, rfl⟩

/-- Witness for C4: a sub-request and a both-limits-0 configuration, each
evaluated against a table holding live counters, are declined untouched. -/
theorem C4_skip_conditions_witness :
    vlimit_check_limit sampleServer
      ⟨false, "10.0.0.1", "/var/www/index.html", some "www.example.com"⟩
      ⟨2, 2, none⟩ ⟨[], [⟨"10.0.0.1", 5⟩]⟩ true true =
      ⟨CheckResult.declined, ⟨[], [⟨"10.0.0.1", 5⟩]⟩, false⟩ ∧
    vlimit_check_limit sampleServer sampleRequest ⟨0, 0, none⟩
      ⟨[], [⟨"10.0.0.1", 5⟩]⟩ true true =
      ⟨CheckResult.declined, ⟨[], [⟨"10.0.0.1", 5⟩]⟩, false⟩ :=
  ⟨((C4_skip_conditions ⟨fun _ => ReadlinkRes.notSymlink, none, fun _ => true⟩
      sampleServer ⟨false, "10.0.0.1", "/var/www/index.html", some "www.example.com"⟩
      ⟨2, 2, none⟩ ⟨[], [⟨"10.0.0.1", 5⟩]⟩ true true 0).1 rfl).1,
   ((C4_skip_conditions ⟨fun _ => ReadlinkRes.notSymlink, none, fun _ => true⟩
      sampleServer sampleRequest ⟨0, 0, none⟩
      ⟨[], [⟨"10.0.0.1", 5⟩]⟩ true true 0).2 rfl rfl).1⟩

/-- C6.  The claim states that a base name longer than MAX_FILENAME is
stored truncated to the bound and that the store never writes past the
key field.  The code stores the key with `strcpy` (line 225), which never
truncates: for a 300-character base name it writes 301 bytes into the
256-byte `filename` field — 45 bytes past its end — and the stored key is
the full untruncated name. -/
theorem C6_strcpy_no_truncation :
    strcpy_bytes_written (posixBasename longNameRequest.filename) > MAX_FILENAME ∧
    inc_file_counter [default] longNameRequest =
      some [⟨String.mk (List.replicate 300 'a'), 1⟩] ∧
    (String.mk (List.replicate 300 'a')).length > MAX_FILENAME :=
  ⟨by decide, by decide, by decide⟩

/-- C5.  Reclaim clears the found slot's key exactly when its counter is
0 — with a nonzero counter the table is returned unchanged — and a slot
occupied with a strictly positive counter keeps its key under every
operation of the protocol (increment, decrement, reclaim). -/
theorem C5_reclaim_iff_zero (tbl : List Slot) (key : String) (i : Nat) :
    (find_slot_id tbl key = some i → (slotAt tbl i).counter = 0 →
      unset_counter tbl key = modifySlot tbl i (fun s => { s with key := "" })) ∧
    (find_slot_id tbl key = some i → (slotAt tbl i).counter ≠ 0 →
      unset_counter tbl key = tbl) ∧
    ((slotAt tbl i).key ≠ "" → 0 < (slotAt tbl i).counter →
      (slotAt (unset_counter tbl key) i).key = (slotAt tbl i).key ∧
      (∀ t2, inc_counter tbl key = some t2 → (slotAt t2 i).key = (slotAt tbl i).key) ∧
      (∀ t2, dec_counter tbl key = some t2 → (slotAt t2 i).key = (slotAt tbl i).key)) := by
  refine ⟨?_, ?_, ?_⟩
  · intro hf hc
    unfold unset_counter
    rw [hf]
    exact modifySlot_congr _ _ tbl i (by simp [hc])
  · intro hf hc
    unfold unset_counter
    rw [hf]
    exact modifySlot_id _ tbl i (find_slot_id_key tbl key i hf).2 (by simp [hc])
  · intro hk hc
    refine ⟨?_, ?_, ?_⟩
    · unfold unset_counter
      cases hf : find_slot_id tbl key with
      | none => rfl
      | some j =>
        by_cases hij : i = j
        · subst hij
          rw [modifySlot_getD_self _ tbl i (find_slot_id_key tbl key i hf).2]
          have : ¬(slotAt tbl i).counter = 0 := by omega
          simp [this]
        · rw [modifySlot_getD_ne _ tbl i j hij]
    · intro t2 ht
      unfold inc_counter at ht
      cases hf : find_slot_id tbl key with
      | some j =>
        rw [hf] at ht
        cases ht
        by_cases hij : i = j
        · subst hij
          rw [modifySlot_getD_self _ tbl i (find_slot_id_key tbl key i hf).2]
        · rw [modifySlot_getD_ne _ tbl i j hij]
      | none =>
        rw [hf] at ht
        cases he : find_empty_slot_id tbl with
        | none => rw [he] at ht; cases ht
        | some j =>
          rw [he] at ht
          cases ht
          have hij : i ≠ j := fun h => by
            apply hk
            rw [h]
            exact (find_empty_slot_id_key tbl j he).1
          rw [modifySlot_getD_ne _ tbl i j hij]
    · intro t2 ht
      unfold dec_counter at ht
      cases hf : find_slot_id tbl key with
      | some j =>
        rw [hf] at ht
        cases ht
        by_cases hij : i = j
        · subst hij
          rw [modifySlot_getD_self _ tbl i (find_slot_id_key tbl key i hf).2]
        · rw [modifySlot_getD_ne _ tbl i j hij]
      | none => rw [hf] at ht; cases ht

/-- Witness for C5: a zero-count slot is reclaimed to Empty; an occupied
slot with counter 2 keeps its key through reclaim, increment and
decrement. -/
theorem C5_reclaim_iff_zero_witness :
    unset_counter [⟨"a", 0⟩] "a" = modifySlot [⟨"a", 0⟩] 0 (fun s => { s with key := "" }) ∧
    unset_counter [⟨"b", 2⟩] "b" = [⟨"b", 2⟩] ∧
    (slotAt (unset_counter [⟨"b", 2⟩] "b") 0).key = (slotAt [⟨"b", 2⟩] 0).key :=
  ⟨(C5_reclaim_iff_zero [⟨"a", 0⟩] "a" 0).1 rfl rfl,
   (C5_reclaim_iff_zero [⟨"b", 2⟩] "b" 0).2.1 rfl (by decide),
   ((C5_reclaim_iff_zero [⟨"b", 2⟩] "b" 0).2.2 (by decide) (by decide)).1⟩

/-- Helper: a character other than the colon is not the delimiter. -/
theorem isColon_false (c : Char) (h : c ≠ ':') : isColon c = false := by
  simp [isColon, h]

/-- Helper: takeWhile up to a colon returns the colon-free prefix. -/
theorem takeWhile_colon_append (t : List Char) :
    ∀ (cs : List Char), ':' ∉ cs →
      (cs ++ ':' :: t).takeWhile (fun c => !isColon c) = cs := by
  intro cs
  induction cs with
  | nil => intro _; simp [List.takeWhile_cons, isColon]
  | cons c cs ih =>
    intro h
    have hc : isColon c = false :=
      isColon_false c (fun he => h (by rw [he]; exact List.mem_cons_self _ _))
    have hcs : ':' ∉ cs := fun hm => h (List.mem_cons_of_mem _ hm)
    simp only [List.cons_append, List.takeWhile_cons, hc, Bool.not_false, if_true, ih hcs]

/-- Helper: takeWhile over a colon-free list is the identity. -/
theorem takeWhile_no_colon :
    ∀ (cs : List Char), ':' ∉ cs →
      cs.takeWhile (fun c => !isColon c) = cs := by
  intro cs
  induction cs with
  | nil => intro _; rfl
  | cons c cs ih =>
    intro h
    have hc : isColon c = false :=
      isColon_false c (fun he => h (by rw [he]; exact List.mem_cons_self _ _))
    have hcs : ':' ∉ cs := fun hm => h (List.mem_cons_of_mem _ hm)
    simp only [List.takeWhile_cons, hc, Bool.not_false, if_true, ih hcs]

/-- Helper: a nonempty string has a cons character list. -/
theorem data_of_ne_empty (s : String) (h : s ≠ "") :
    ∃ c cs, s.data = c :: cs := by
  cases hd : s.data with
  | nil =>
    exfalso
    apply h
    cases s
    simp only at hd
    simp [hd]
  | cons c cs => exact ⟨c, cs, rfl⟩

/-- Helper: strtok on `name:port` yields `name` when the name part is
nonempty and colon-free. -/
theorem strtok_first_strips_port (name port : String) (h1 : name ≠ "")
    (h2 : ':' ∉ name.data) :
    strtok_first (name ++ ":" ++ port) = some name := by
  obtain ⟨c, cs, hnc⟩ := data_of_ne_empty name h1
  have hc : isColon c = false :=
    isColon_false c (fun he => h2 (by rw [hnc, he]; exact List.mem_cons_self _ _))
  have hcs : ':' ∉ cs := fun hm => h2 (by rw [hnc]; exact List.mem_cons_of_mem _ hm)
  have hdata : (name ++ ":" ++ port).toList = c :: (cs ++ ':' :: port.data) := by
    show (name ++ ":" ++ port).data = _
    have h3 : (name ++ ":" ++ port).data = (name.data ++ [':']) ++ port.data := rfl
    rw [h3, hnc]
    simp
  unfold strtok_first
  rw [hdata, List.dropWhile_cons, hc]
  simp only [Bool.false_eq_true, if_false]
  simp only [List.takeWhile_cons, hc, Bool.not_false, if_true,
    takeWhile_colon_append port.data cs hcs]
  rw [show (c :: cs) = name.data from hnc.symm]

/-- Helper: strtok on a nonempty colon-free string is the identity. -/
theorem strtok_first_no_colon (name : String) (h1 : name ≠ "")
    (h2 : ':' ∉ name.data) :
    strtok_first name = some name := by
  obtain ⟨c, cs, hnc⟩ := data_of_ne_empty name h1
  have hc : isColon c = false :=
    isColon_false c (fun he => h2 (by rw [hnc, he]; exact List.mem_cons_self _ _))
  have hcs : ':' ∉ cs := fun hm => h2 (by rw [hnc]; exact List.mem_cons_of_mem _ hm)
  unfold strtok_first
  rw [show name.toList = c :: cs from hnc, List.dropWhile_cons, hc]
  simp only [Bool.false_eq_true, if_false]
  simp only [List.takeWhile_cons, hc, Bool.not_false, if_true, takeWhile_no_colon cs hcs]
  rw [show (c :: cs) = name.data from hnc.symm]

/-- C7.  The virtual-host predicate: with the Host header value (or the
sentinel "NoHostHeader" when the header is absent) stripped of its
optional ":port" suffix, the request matches iff the stripped host equals
the primary ServerName or some ServerAlias, by exact case-sensitive
comparison; and a request whose host does not match is never rejected —
the admission call leaves the tables untouched and returns a non-503
status whatever the counter state. -/
theorem C7_virtualhost_predicate (sv : ServerRec) (r : Request) (cfg : VlimitConfig)
    (shm : ShmData) (lockOk unlockOk : Bool) (name port : String) :
    (name ≠ "" → ':' ∉ name.data →
      (check_virtualhost_name sv { r with hostHeader := some (name ++ ":" ++ port) } = true ↔
        name = sv.server_hostname ∨ name ∈ sv.names) ∧
      (check_virtualhost_name sv { r with hostHeader := some name } = true ↔
        name = sv.server_hostname ∨ name ∈ sv.names)) ∧
    (check_virtualhost_name sv { r with hostHeader := none } = true ↔
      "NoHostHeader" = sv.server_hostname ∨ "NoHostHeader" ∈ sv.names) ∧
    (check_virtualhost_name sv r = false →
      (vlimit_check_limit sv r cfg shm lockOk unlockOk).result ≠
        CheckResult.serviceUnavailable ∧
      (vlimit_check_limit sv r cfg shm lockOk unlockOk).shm = shm) := by
  refine ⟨?_, ?_, ?_⟩
  · intro h1 h2
    have e1 : access_host (some (name ++ ":" ++ port)) = name := by
      show (strtok_first (name ++ ":" ++ port)).getD (name ++ ":" ++ port) = name
      rw [strtok_first_strips_port name port h1 h2, Option.getD_some]
    have e2 : access_host (some name) = name := by
      show (strtok_first name).getD name = name
      rw [strtok_first_no_colon name h1 h2, Option.getD_some]
    constructor
    · simp [check_virtualhost_name, e1, List.elem_iff]
    · simp [check_virtualhost_name, e2, List.elem_iff]
  · have e3 : access_host none = "NoHostHeader" := rfl
    simp [check_virtualhost_name, e3, List.elem_iff]
  · intro hv
    cases hri : r.isInitialReq with
    | false => simp [vlimit_check_limit, hri]
    | true =>
      by_cases hl : cfg.ip_limit ≤ 0 ∧ cfg.file_limit ≤ 0
      · simp [vlimit_check_limit, hri, hl]
      · simp [vlimit_check_limit, hri, hl, hv]

/-- Witness for C7: the primary name matches with and without a port
suffix; an unrelated host is not rejected even over a saturated table. -/
theorem C7_virtualhost_predicate_witness :
    (check_virtualhost_name sampleServer
      { sampleRequest with hostHeader := some ("www.example.com" ++ ":" ++ "8080") } = true ↔
      "www.example.com" = sampleServer.server_hostname ∨
      "www.example.com" ∈ sampleServer.names) ∧
    (vlimit_check_limit sampleServer
        { sampleRequest with hostHeader := some "other.example.org" }
        ⟨1, 0, none⟩ ⟨[], [⟨"10.0.0.1", 99⟩]⟩ true true).result ≠
      CheckResult.serviceUnavailable :=
  ⟨((C7_virtualhost_predicate sampleServer sampleRequest ⟨1, 0, none⟩ ⟨[], []⟩ true true
      "www.example.com" "8080").1 (by decide) (by decide)).1,
   ((C7_virtualhost_predicate sampleServer
      { sampleRequest with hostHeader := some "other.example.org" } ⟨1, 0, none⟩
      ⟨[], [⟨"10.0.0.1", 99⟩]⟩ true true "x" "y").2.2 (by decide)).1⟩

/-- C8.  A decrement whose key occupies no slot is the logged no-op branch
(`-1` = none) and leaves its table untouched; the completion call's own
pipeline also leaves the table untouched for an absent key, and every
return path of the completion call is OK — the miss never fails the
request. -/
theorem C8_decrement_miss_noop (sv : ServerRec) (r : Request) (cfg : VlimitConfig)
    (shm : ShmData) (lockOk unlockOk : Bool) :
    (find_slot_id shm.file_stat_shm (posixBasename r.filename) = none →
      dec_file_counter shm.file_stat_shm r = none ∧
      (vlimit_response_end sv r cfg shm lockOk unlockOk).2.file_stat_shm =
        shm.file_stat_shm) ∧
    (find_slot_id shm.ip_stat_shm r.remoteIp = none →
      dec_ip_counter shm.ip_stat_shm r = none ∧
      (vlimit_response_end sv r cfg shm lockOk unlockOk).2.ip_stat_shm =
        shm.ip_stat_shm) ∧
    (vlimit_response_end sv r cfg shm lockOk unlockOk).1 = CheckResult.ok := by
  refine ⟨?_, ?_, ?_⟩
  · intro hf
    have hdec : dec_file_counter shm.file_stat_shm r = none := by
      unfold dec_file_counter dec_counter
      rw [hf]
    have hunset : unset_file_counter shm.file_stat_shm r = shm.file_stat_shm := by
      unfold unset_file_counter unset_counter
      rw [hf]
    refine ⟨hdec, ?_⟩
    unfold vlimit_response_end
    split
    · rfl
    · split
      · rfl
      · simp only [hdec, Option.getD_none, ite_self, hunset]
  · intro hf
    have hdec : dec_ip_counter shm.ip_stat_shm r = none := by
      unfold dec_ip_counter dec_counter
      rw [hf]
    have hunset : unset_ip_counter shm.ip_stat_shm r = shm.ip_stat_shm := by
      unfold unset_ip_counter unset_counter
      rw [hf]
    refine ⟨hdec, ?_⟩
    unfold vlimit_response_end
    split
    · rfl
    · split
      · rfl
      · simp only [hdec, Option.getD_none, ite_self, hunset]
  · unfold vlimit_response_end
    split
    · rfl
    · split
      · rfl
      · rfl

/-- Witness for C8: a completion call for a key held in no slot returns OK
and leaves the saturated table untouched. -/
theorem C8_decrement_miss_noop_witness :
    dec_ip_counter ([⟨"9.9.9.9", 3⟩] : List Slot) sampleRequest = none ∧
    (vlimit_response_end sampleServer sampleRequest ⟨1, 0, none⟩
      ⟨[], [⟨"9.9.9.9", 3⟩]⟩ true true).2.ip_stat_shm = [⟨"9.9.9.9", 3⟩] ∧
    (vlimit_response_end sampleServer sampleRequest ⟨1, 0, none⟩
      ⟨[], [⟨"9.9.9.9", 3⟩]⟩ true true).1 = CheckResult.ok :=
  ⟨((C8_decrement_miss_noop sampleServer sampleRequest ⟨1, 0, none⟩
      ⟨[], [⟨"9.9.9.9", 3⟩]⟩ true true).2.1 (by decide)).1,
   ((C8_decrement_miss_noop sampleServer sampleRequest ⟨1, 0, none⟩
      ⟨[], [⟨"9.9.9.9", 3⟩]⟩ true true).2.1 (by decide)).2,
   (C8_decrement_miss_noop sampleServer sampleRequest ⟨1, 0, none⟩
      ⟨[], [⟨"9.9.9.9", 3⟩]⟩ true true).2.2⟩

/-- C9.  The path-scope predicate of the fixups hook: with a configured
target path, a request target that does not exist on the filesystem is
compared literally against it; an existing target is canonicalized by
realpath_for_vlimit (resolving `.`, `..` and symlinks, bounded by the
MAXSYMLINKS indirection count) and compared for exact equality; and a
request whose canonicalization fails is DECLINED — skipped, never
rejected. -/
theorem C9_path_scope (fs : Filesystem) (sv : ServerRec) (r : Request)
    (cfg : VlimitConfig) (shm : ShmData) (lockOk unlockOk : Bool) (fuel : Nat)
    (fp rp : String) :
    (cfg.full_path = some fp → fs.fexists r.filename = false →
      vlimit_handler fs sv r cfg shm lockOk unlockOk fuel =
        if fp ≠ r.filename then ⟨CheckResult.declined, shm, false⟩
        else vlimit_check_limit sv r cfg shm lockOk unlockOk) ∧
    (cfg.full_path = some fp → fs.fexists r.filename = true →
      realpath_for_vlimit fs r.filename PATH_MAX fuel = none →
      vlimit_handler fs sv r cfg shm lockOk unlockOk fuel =
        ⟨CheckResult.declined, shm, false⟩) ∧
    (cfg.full_path = some fp → fs.fexists r.filename = true →
      realpath_for_vlimit fs r.filename PATH_MAX fuel = some rp →
      vlimit_handler fs sv r cfg shm lockOk unlockOk fuel =
        if fp ≠ rp then ⟨CheckResult.declined, shm, false⟩
        else vlimit_check_limit sv r cfg shm lockOk unlockOk) := by
  refine ⟨?_, ?_, ?_⟩
  · intro hfp hex
    simp [vlimit_handler, hfp, hex]
  · intro hfp hex hrp
    simp [vlimit_handler, hfp, hex, hrp]
  · intro hfp hex hrp
    simp [vlimit_handler, hfp, hex, hrp]

/-- Witness for C9: a nonexistent target is compared literally; a
self-loop symlink exhausts the MAXSYMLINKS bound, canonicalization fails
and the request is declined; an existing `/www/./b/../a` canonicalizes to
`/www/a` and is compared exactly. -/
theorem C9_path_scope_witness :
    vlimit_handler missFs sampleServer { sampleRequest with filename := "/www/a" }
      ⟨1, 0, some "/www/a"⟩ ⟨[], []⟩ true true 100 =
      (if ("/www/a" : String) ≠ ({ sampleRequest with filename := "/www/a" } : Request).filename
       then ⟨CheckResult.declined, ⟨[], []⟩, false⟩
       else vlimit_check_limit sampleServer { sampleRequest with filename := "/www/a" }
         ⟨1, 0, some "/www/a"⟩ ⟨[], []⟩ true true) ∧
    vlimit_handler loopFs sampleServer { sampleRequest with filename := "/www/loop" }
      ⟨1, 0, some "/www/loop"⟩ ⟨[], []⟩ true true 2000 =
      ⟨CheckResult.declined, ⟨[], []⟩, false⟩ ∧
    vlimit_handler plainFs sampleServer { sampleRequest with filename := "/www/./b/../a" }
      ⟨1, 0, some "/www/a"⟩ ⟨[], []⟩ true true 100 =
      (if ("/www/a" : String) ≠ ("/www/a" : String)
       then ⟨CheckResult.declined, ⟨[], []⟩, false⟩
       else vlimit_check_limit sampleServer { sampleRequest with filename := "/www/./b/../a" }
         ⟨1, 0, some "/www/a"⟩ ⟨[], []⟩ true true) :=
  ⟨(C9_path_scope missFs sampleServer { sampleRequest with filename := "/www/a" }
      ⟨1, 0, some "/www/a"⟩ ⟨[], []⟩ true true 100 "/www/a" "x").1 rfl (by decide),
   (C9_path_scope loopFs sampleServer { sampleRequest with filename := "/www/loop" }
      ⟨1, 0, some "/www/loop"⟩ ⟨[], []⟩ true true 2000 "/www/loop" "x").2.1 rfl
      (by decide) (by decide),
   (C9_path_scope plainFs sampleServer { sampleRequest with filename := "/www/./b/../a" }
      ⟨1, 0, some "/www/a"⟩ ⟨[], []⟩ true true 100 "/www/a" "/www/a").2.2 rfl
      (by decide) (by decide)⟩

/-- C10.  The completion call checks neither the initial-request flag nor
the configured path scope: its outcome is invariant under changing the
request's initial-request flag and the configuration's full_path; and
whenever the Host matches and the lock is acquired, completion decrements
the matching counter whenever its current value is positive — the ip
counter of the client address when the ip limit is enabled, and the file
counter of the target's base name when the file limit is enabled — also
for requests that were skipped at admission and never incremented. -/
theorem C10_completion_asymmetry (sv : ServerRec) (r : Request) (cfg : VlimitConfig)
    (shm : ShmData) (lockOk unlockOk : Bool) (b : Bool) (p : Option String) (i : Nat) :
    (vlimit_response_end sv { r with isInitialReq := b } cfg shm lockOk unlockOk =
      vlimit_response_end sv r cfg shm lockOk unlockOk) ∧
    (vlimit_response_end sv r { cfg with full_path := p } shm lockOk unlockOk =
      vlimit_response_end sv r cfg shm lockOk unlockOk) ∧
    (check_virtualhost_name sv r = true → cfg.ip_limit > 0 →
      find_slot_id shm.ip_stat_shm r.remoteIp = some i →
      0 < (slotAt shm.ip_stat_shm i).counter →
      (slotAt (vlimit_response_end sv r cfg shm true unlockOk).2.ip_stat_shm i).counter =
        (slotAt shm.ip_stat_shm i).counter - 1) ∧
    (check_virtualhost_name sv r = true → cfg.file_limit > 0 →
      find_slot_id shm.file_stat_shm (posixBasename r.filename) = some i →
      0 < (slotAt shm.file_stat_shm i).counter →
      (slotAt (vlimit_response_end sv r cfg shm true unlockOk).2.file_stat_shm i).counter =
        (slotAt shm.file_stat_shm i).counter - 1) := by
  refine ⟨rfl, rfl, ?_, ?_⟩
  · intro hv hip hfind hpos
    have hlen : i < shm.ip_stat_shm.length := (find_slot_id_key _ _ _ hfind).2
    have hget0 : get_ip_counter shm.ip_stat_shm r = (slotAt shm.ip_stat_shm i).counter := by
      unfold get_ip_counter get_counter
      simp only [hfind]
    have hgt : get_ip_counter shm.ip_stat_shm r > 0 := by rw [hget0]; exact hpos
    have hdec : dec_ip_counter shm.ip_stat_shm r =
        some (modifySlot shm.ip_stat_shm i (fun s => { s with counter := s.counter - 1 })) := by
      unfold dec_ip_counter dec_counter
      simp only [hfind]
    have hcongr : scanSlots (fun s => s.key == r.remoteIp)
        (modifySlot shm.ip_stat_shm i (fun s => { s with counter := s.counter - 1 })) =
        scanSlots (fun s => s.key == r.remoteIp) shm.ip_stat_shm :=
      scanSlots_modify_congr (fun s => s.key == r.remoteIp)
        (fun s => { s with counter := s.counter - 1 }) (fun s => rfl) shm.ip_stat_shm i
    have hfind1 : find_slot_id
        (modifySlot shm.ip_stat_shm i (fun s => { s with counter := s.counter - 1 }))
        r.remoteIp = some i := by
      unfold find_slot_id
      rw [hcongr]
      exact hfind
    have hslot1 : slotAt
        (modifySlot shm.ip_stat_shm i (fun s => { s with counter := s.counter - 1 })) i =
        { key := (slotAt shm.ip_stat_shm i).key,
          counter := (slotAt shm.ip_stat_shm i).counter - 1 } := by
      rw [modifySlot_getD_self _ shm.ip_stat_shm i hlen]
    have hget1 : get_ip_counter
        (modifySlot shm.ip_stat_shm i (fun s => { s with counter := s.counter - 1 })) r =
        (slotAt shm.ip_stat_shm i).counter - 1 := by
      unfold get_ip_counter get_counter
      simp only [hfind1]
      rw [hslot1]
    have hv2 : ¬(check_virtualhost_name sv r = false) := by simp [hv]
    unfold vlimit_response_end
    rw [if_neg hv2, if_neg (by simp : ¬((true : Bool) = false))]
    simp only
    rw [if_pos hip, if_pos hgt, hdec, Option.getD_some]
    by_cases hz : get_ip_counter
        (modifySlot shm.ip_stat_shm i (fun s => { s with counter := s.counter - 1 })) r = 0
    · rw [if_pos hz]
      have hz2 : (slotAt shm.ip_stat_shm i).counter - 1 = 0 := by rw [← hget1]; exact hz
      unfold unset_ip_counter unset_counter
      simp only [hfind1]
      rw [modifySlot_getD_self _ _ i (by rw [modifySlot_length]; exact hlen), hslot1]
      simp [hz2]
    · rw [if_neg hz]
      rw [hslot1]
  · intro hv hfl hfind hpos
    have hlen : i < shm.file_stat_shm.length := (find_slot_id_key _ _ _ hfind).2
    have hget0 : get_file_counter shm.file_stat_shm r =
        (slotAt shm.file_stat_shm i).counter := by
      unfold get_file_counter get_counter
      simp only [hfind]
    have hgt : get_file_counter shm.file_stat_shm r > 0 := by rw [hget0]; exact hpos
    have hdec : dec_file_counter shm.file_stat_shm r =
        some (modifySlot shm.file_stat_shm i (fun s => { s with counter := s.counter - 1 })) := by
      unfold dec_file_counter dec_counter
      simp only [hfind]
    have hcongr : scanSlots (fun s => s.key == posixBasename r.filename)
        (modifySlot shm.file_stat_shm i (fun s => { s with counter := s.counter - 1 })) =
        scanSlots (fun s => s.key == posixBasename r.filename) shm.file_stat_shm :=
      scanSlots_modify_congr (fun s => s.key == posixBasename r.filename)
        (fun s => { s with counter := s.counter - 1 }) (fun s => rfl) shm.file_stat_shm i
    have hfind1 : find_slot_id
        (modifySlot shm.file_stat_shm i (fun s => { s with counter := s.counter - 1 }))
        (posixBasename r.filename) = some i := by
      unfold find_slot_id
      rw [hcongr]
      exact hfind
    have hslot1 : slotAt
        (modifySlot shm.file_stat_shm i (fun s => { s with counter := s.counter - 1 })) i =
        { key := (slotAt shm.file_stat_shm i).key,
          counter := (slotAt shm.file_stat_shm i).counter - 1 } := by
      rw [modifySlot_getD_self _ shm.file_stat_shm i hlen]
    have hget1 : get_file_counter
        (modifySlot shm.file_stat_shm i (fun s => { s with counter := s.counter - 1 })) r =
        (slotAt shm.file_stat_shm i).counter - 1 := by
      unfold get_file_counter get_counter
      simp only [hfind1]
      rw [hslot1]
    have hv2 : ¬(check_virtualhost_name sv r = false) := by simp [hv]
    unfold vlimit_response_end
    rw [if_neg hv2, if_neg (by simp : ¬((true : Bool) = false))]
    simp only
    rw [if_pos hfl, if_pos hgt, hdec, Option.getD_some]
    by_cases hz : get_file_counter
        (modifySlot shm.file_stat_shm i (fun s => { s with counter := s.counter - 1 })) r = 0
    · rw [if_pos hz]
      have hz2 : (slotAt shm.file_stat_shm i).counter - 1 = 0 := by rw [← hget1]; exact hz
      unfold unset_file_counter unset_counter
      simp only [hfind1]
      rw [modifySlot_getD_self _ _ i (by rw [modifySlot_length]; exact hlen), hslot1]
      simp [hz2]
    · rw [if_neg hz]
      rw [hslot1]

/-- Witness for C10: a sub-request is skipped (DECLINED, tables untouched)
at admission, yet its completion call decrements the ip counter another
request's admission had reserved for the same address; symmetrically,
under a file-limit-only configuration, a sub-request's completion call
decrements the file counter reserved for the same base name. -/
theorem C10_completion_asymmetry_witness :
    vlimit_check_limit ⟨"h", []⟩ ⟨false, "1.2.3.4", "/f", some "h"⟩ ⟨1, 0, none⟩
      ⟨[], [⟨"1.2.3.4", 1⟩]⟩ true true =
      ⟨CheckResult.declined, ⟨[], [⟨"1.2.3.4", 1⟩]⟩, false⟩ ∧
    (slotAt (vlimit_response_end ⟨"h", []⟩ ⟨false, "1.2.3.4", "/f", some "h"⟩ ⟨1, 0, none⟩
      ⟨[], [⟨"1.2.3.4", 1⟩]⟩ true true).2.ip_stat_shm 0).counter =
      (slotAt ([⟨"1.2.3.4", 1⟩] : List Slot) 0).counter - 1 ∧
    (slotAt (vlimit_response_end ⟨"h", []⟩ ⟨false, "1.2.3.4", "/f", some "h"⟩ ⟨0, 1, none⟩
      ⟨[⟨"f", 1⟩], []⟩ true true).2.file_stat_shm 0).counter =
      (slotAt ([⟨"f", 1⟩] : List Slot) 0).counter - 1 :=
  ⟨by decide,
   (C10_completion_asymmetry ⟨"h", []⟩ ⟨false, "1.2.3.4", "/f", some "h"⟩ ⟨1, 0, none⟩
      ⟨[], [⟨"1.2.3.4", 1⟩]⟩ true true false none 0).2.2.1
      (by decide) (by decide) (by decide) (by decide),
   (C10_completion_asymmetry ⟨"h", []⟩ ⟨false, "1.2.3.4", "/f", some "h"⟩ ⟨0, 1, none⟩
      ⟨[⟨"f", 1⟩], []⟩ true true false none 0).2.2.2
      (by decide) (by decide) (by decide) (by decide)⟩
